import Mathlib

/-!
# Verification of the estimation-calc pricing engines

A shallow embedding of the interior and exterior painting-estimate
calculation engines (`src/lib/calculations/interior.ts` and
`src/lib/calc/exterior.ts`) over exact rationals.  JavaScript's
`Math.round` (round half toward positive infinity) is modelled by
`jround`, `Math.floor` by `Int.floor`, and every currency amount is a
rational.  Cosmetic fields of the source records (display names, basis
strings, side identifiers, free-text notes) are omitted; advisory
warning strings are modelled by the `Warning` inductive carrying the
data the source interpolates into the string.
-/

namespace EstCalc

/-- JavaScript `Math.round`: round half toward positive infinity. -/
def jround (q : ℚ) : ℤ := ⌊q + 1 / 2⌋

/-- `roundCurrency` from `interior.ts`: `Math.round(amount)`, kept as a rational. -/
def roundCurrency (amount : ℚ) : ℚ := (jround amount : ℚ)

/-- `clampNonNeg` from `interior.ts`: `Math.max(0, value)`. -/
def clampNonNeg (value : ℚ) : ℚ := max 0 value

/-- JavaScript `Math.floor`, kept as a rational. -/
def jfloor (q : ℚ) : ℚ := (⌊q⌋ : ℚ)

/-! ## The rate table (`src/lib/calc/rates.ts`) -/

namespace Rates

def WALL_MULT_GENERAL : ℚ := 2.8
def WALL_MULT_KITCHEN : ℚ := 3.1
def WALL_MULT_BATHROOM : ℚ := 4.1
def VAULTED_ADD : ℚ := 0.5
def TRIM_SF_MULT : ℚ := 0.5
def BASEBOARD_LF_WITH_WALLS : ℚ := 1.88
def BASEBOARD_LF_ONLY : ℚ := 5.6
def STAINED_CONVERSION_MULT : ℚ := 3.0
def CEILING_MULT_WITH_WALLS : ℚ := 0.6
def CEILING_MULT_ONLY : ℚ := 1.7
def DOOR_PER_SIDE : ℚ := 63
def CLOSET_STANDARD : ℚ := 120
def CLOSET_WALKIN : ℚ := 185
def WINDOW_BASE : ℚ := 70
def ACCENT_WALL_IN_ROOM : ℚ := 150
def ACCENT_WALL_STANDALONE : ℚ := 185
def CROWN_MOLDING_PER_LF : ℚ := 1.5
def SCAFFOLDING_FEE : ℚ := 650
def SETUP_THRESHOLD : ℚ := 1566
def SETUP_MAX_FEE : ℚ := 300
def ADDITIONAL_COLOR_FEE : ℚ := 134
def MIN_ROOM_CHARGE : ℚ := 275
def WALLPAPER_PER_WALL_SF : ℚ := 7
def CUSTOMER_SUPPLIES_PAINT_DEDUCT : ℚ := 0.15
def PREMIUM_PAINT_UPCHARGE : ℚ := 200

def EXTERIOR_HEIGHT_MULT_ONE_STORY : ℚ := 1.25
def EXTERIOR_HEIGHT_MULT_ONE_HALF_STORY : ℚ := 1.5
def EXTERIOR_HEIGHT_MULT_TWO_STORY : ℚ := 1.75
def EXTERIOR_HEIGHT_MULT_THREE_STORY : ℚ := 2.25
def EXTERIOR_DIFFICULTY_NON_FLAT_GROUND : ℚ := 0.25
def EXTERIOR_DIFFICULTY_ROOF_ACCESS : ℚ := 0.25
def EXTERIOR_FLAKING_LIGHT : ℚ := 0.0
def EXTERIOR_FLAKING_MEDIUM : ℚ := 0.3
def EXTERIOR_FLAKING_HEAVY_MIN : ℚ := 0.5
def EXTERIOR_FLAKING_HEAVY_MAX : ℚ := 1.0
def EXTERIOR_BASE_FEE : ℚ := 1750
def EXTERIOR_COAT_MULTIPLIER : ℚ := 1.6
def EXTERIOR_ADD_ON_SHUTTER : ℚ := 75
def EXTERIOR_ADD_ON_FRONT_DOOR : ℚ := 250
def EXTERIOR_ADD_ON_GARAGE_1_CAR : ℚ := 200
def EXTERIOR_ADD_ON_GARAGE_2_CAR : ℚ := 400
def EXTERIOR_PARTIAL_JOB_MULTIPLIER : ℚ := 0.6

end Rates

/-! ## Interior data model (`src/types/estimate.ts`) -/

/-- `RoomType` enum. -/
inductive RoomType
  | general
  | kitchen
  | bathroom
deriving DecidableEq, Repr

/-- `TrimMode` enum. -/
inductive TrimMode
  | noTrim
  | trimPackageSF
  | baseboardsLF
deriving DecidableEq, Repr

/-- `LineItemCategory` enum. -/
inductive LineItemCategory
  | walls
  | ceiling
  | trim
  | doors
  | closets
  | windows
  | accentWalls
  | crownMolding
  | scaffolding
  | additionalColors
  | wallpaperRemoval
  | paintOptions
  | setupFee
deriving DecidableEq, Repr

/-- `WindowInput`: one window with a size factor. -/
structure WindowInput where
  sizeFactor : ℚ
deriving DecidableEq, Repr

/-- `RoomInput`: all data for a single room (display name kept; basis strings elsewhere dropped). -/
structure RoomInput where
  id : String
  name : String
  floorSqft : ℚ
  roomType : RoomType
  paintWalls : Bool
  paintCeiling : Bool
  vaulted : Bool
  trimMode : TrimMode
  baseboardLF : ℚ
  stainedTrimConversion : Bool
  crownMoldingLF : ℚ
  doorSides : ℚ
  closetsStandard : ℚ
  closetsWalkIn : ℚ
  windows : List WindowInput
  accentWallsInRoom : ℚ
  accentWallsStandalone : ℚ
  needsScaffolding : Bool
  wallpaperRemovalSqft : ℚ
deriving DecidableEq, Repr

/-- `InteriorJobInput`: rooms plus job-level options. -/
structure InteriorJobInput where
  rooms : List RoomInput
  numWallColors : ℚ
  customerSuppliesPaint : Bool
  premiumPaint : Bool
deriving DecidableEq, Repr

/-- `LineItem` (cosmetic `name`/`basis` strings omitted). -/
structure LineItem where
  category : LineItemCategory
  cost : ℚ
  roomId : Option String
deriving DecidableEq, Repr

/-- `WallCalculationResult` (basis string omitted). -/
structure WallCalculationResult where
  cost : ℚ
  multiplier : ℚ
  minimumApplied : Bool
deriving DecidableEq, Repr

/-- `CeilingCalculationResult` (basis string omitted). -/
structure CeilingCalculationResult where
  cost : ℚ
  multiplier : ℚ
deriving DecidableEq, Repr

/-- `CalculationResult` (basis string omitted). -/
structure CalculationResult where
  cost : ℚ
deriving DecidableEq, Repr

/-- `AdditionalColorsResult` (basis string omitted). -/
structure AdditionalColorsResult where
  cost : ℚ
  extraColors : ℚ
deriving DecidableEq, Repr

/-- `SetupFeeResult` (basis string omitted). -/
structure SetupFeeResult where
  fee : ℚ
deriving DecidableEq, Repr

/-- `RoomResult`: one room's line items and total. -/
structure RoomResult where
  roomId : String
  roomName : String
  lineItems : List LineItem
  roomTotal : ℚ
deriving DecidableEq, Repr

/-- Advisory warnings; the source pushes strings, modelled here by
constructors carrying the interpolated room name. -/
inductive Warning
  | noRooms
  | largeRoom (roomName : String)
  | highDoorCount (roomName : String)
deriving DecidableEq, Repr

/-- `EstimateResult`: complete interior estimate output. -/
structure EstimateResult where
  rooms : List RoomResult
  lineItems : List LineItem
  subtotal : ℚ
  setupFee : ℚ
  total : ℚ
  roomCount : ℕ
  warnings : List Warning
deriving DecidableEq, Repr

/-! ## Interior sub-calculations (`src/lib/calculations/interior.ts`) -/

/-- `getWallMultiplier`. -/
def getWallMultiplier (roomType : RoomType) : ℚ :=
  match roomType with
  | .kitchen => Rates.WALL_MULT_KITCHEN
  | .bathroom => Rates.WALL_MULT_BATHROOM
  | .general => Rates.WALL_MULT_GENERAL

/-- `calculateRoomWalls`. -/
def calculateRoomWalls (floorSqft : ℚ) (roomType : RoomType)
    (vaulted : Bool) (paintWalls : Bool) : WallCalculationResult :=
  if !paintWalls || floorSqft ≤ 0 then
    { cost := 0, multiplier := 0, minimumApplied := false }
  else
    let sqft := clampNonNeg floorSqft
    let multiplier :=
      getWallMultiplier roomType + (if vaulted then Rates.VAULTED_ADD else 0)
    let cost := sqft * multiplier
    let minimumApplied := cost < Rates.MIN_ROOM_CHARGE
    { cost := roundCurrency (max cost Rates.MIN_ROOM_CHARGE)
      multiplier := multiplier
      minimumApplied := minimumApplied }

/-- `calculateCeiling`. -/
def calculateCeiling (floorSqft : ℚ)
    (paintCeiling : Bool) (wallsBeingPainted : Bool) : CeilingCalculationResult :=
  if !paintCeiling || floorSqft ≤ 0 then
    { cost := 0, multiplier := 0 }
  else
    let sqft := clampNonNeg floorSqft
    let multiplier :=
      if wallsBeingPainted then Rates.CEILING_MULT_WITH_WALLS
      else Rates.CEILING_MULT_ONLY
    { cost := roundCurrency (sqft * multiplier), multiplier := multiplier }

/-- `calculateTrim`. -/
def calculateTrim (floorSqft : ℚ) (trimMode : TrimMode) (baseboardLF : ℚ)
    (wallsBeingPainted : Bool) (stainedConversion : Bool) : CalculationResult :=
  match trimMode with
  | .noTrim => { cost := 0 }
  | .trimPackageSF =>
    let sqft := clampNonNeg floorSqft
    let cost := sqft * Rates.TRIM_SF_MULT
    let cost := if stainedConversion ∧ cost > 0
      then cost * Rates.STAINED_CONVERSION_MULT else cost
    { cost := roundCurrency cost }
  | .baseboardsLF =>
    let lf := clampNonNeg baseboardLF
    let rate := if wallsBeingPainted then Rates.BASEBOARD_LF_WITH_WALLS
      else Rates.BASEBOARD_LF_ONLY
    let cost := lf * rate
    let cost := if stainedConversion ∧ cost > 0
      then cost * Rates.STAINED_CONVERSION_MULT else cost
    { cost := roundCurrency cost }

/-- `calculateCrownMolding`. -/
def calculateCrownMolding (linearFeet : ℚ) : CalculationResult :=
  let lf := clampNonNeg linearFeet
  if lf ≤ 0 then { cost := 0 }
  else { cost := roundCurrency (lf * Rates.CROWN_MOLDING_PER_LF) }

/-- `calculateDoors`: `clampNonNeg(Math.floor(sides))` then per-side rate. -/
def calculateDoors (sides : ℚ) : CalculationResult :=
  let count := clampNonNeg (jfloor sides)
  if count ≤ 0 then { cost := 0 }
  else { cost := roundCurrency (count * Rates.DOOR_PER_SIDE) }

/-- Per-window factor: `clampNonNeg(window.sizeFactor) || 1` — a zero
(falsy) clamped factor falls back to 1. -/
def windowFactor (sizeFactor : ℚ) : ℚ :=
  let c := clampNonNeg sizeFactor
  if c = 0 then 1 else c

/-- `calculateWindows`. -/
def calculateWindows (windows : List WindowInput) : CalculationResult :=
  if windows = [] then { cost := 0 }
  else
    let totalCost := windows.foldl
      (fun acc w => acc + Rates.WINDOW_BASE * windowFactor w.sizeFactor) 0
    { cost := roundCurrency totalCost }

/-- `calculateClosets`. -/
def calculateClosets (standard walkIn : ℚ) : CalculationResult :=
  let stdCount := clampNonNeg (jfloor standard)
  let walkInCount := clampNonNeg (jfloor walkIn)
  if stdCount ≤ 0 ∧ walkInCount ≤ 0 then { cost := 0 }
  else
    { cost := roundCurrency
        (stdCount * Rates.CLOSET_STANDARD + walkInCount * Rates.CLOSET_WALKIN) }

/-- `calculateAccentWalls`. -/
def calculateAccentWalls (inRoom standalone : ℚ) : CalculationResult :=
  let inRoomCount := clampNonNeg (jfloor inRoom)
  let standaloneCount := clampNonNeg (jfloor standalone)
  if inRoomCount ≤ 0 ∧ standaloneCount ≤ 0 then { cost := 0 }
  else
    { cost := roundCurrency
        (inRoomCount * Rates.ACCENT_WALL_IN_ROOM +
          standaloneCount * Rates.ACCENT_WALL_STANDALONE) }

/-- `calculateScaffolding`. -/
def calculateScaffolding (needsScaffolding : Bool) : CalculationResult :=
  if !needsScaffolding then { cost := 0 }
  else { cost := Rates.SCAFFOLDING_FEE }

/-- `calculateAdditionalColors`. -/
def calculateAdditionalColors (numColors : ℚ) : AdditionalColorsResult :=
  let colors := clampNonNeg (jfloor numColors)
  let extra := max 0 (colors - 1)
  if extra ≤ 0 then { cost := 0, extraColors := 0 }
  else
    { cost := roundCurrency (extra * Rates.ADDITIONAL_COLOR_FEE)
      extraColors := extra }

/-- `calculateWallpaperRemoval`. -/
def calculateWallpaperRemoval (wallSqft : ℚ) : CalculationResult :=
  let sqft := clampNonNeg wallSqft
  if sqft ≤ 0 then { cost := 0 }
  else { cost := roundCurrency (sqft * Rates.WALLPAPER_PER_WALL_SF) }

/-- `calculateSetupFee`. -/
def calculateSetupFee (subtotal : ℚ) : SetupFeeResult :=
  let sub := clampNonNeg subtotal
  if Rates.SETUP_THRESHOLD ≤ sub then { fee := 0 }
  else
    let difference := Rates.SETUP_THRESHOLD - sub
    let fee := min Rates.SETUP_MAX_FEE difference
    { fee := roundCurrency fee }

/-! ## Room assembly and the interior estimate -/

/-- Sum of line-item costs: `items.reduce((sum, item) => sum + item.cost, 0)`. -/
def sumCosts (items : List LineItem) : ℚ :=
  items.foldl (fun sum item => sum + item.cost) 0

/-- `if (x.cost > 0) lineItems.push(item)` — the conditional push used by
`calculateRoom` and `calculateInteriorEstimate`. -/
def guardItem (item : LineItem) : List LineItem :=
  if 0 < item.cost then [item] else []

/-- `calculateRoom`: assemble the positive sub-results, in source order. -/
def calculateRoom (room : RoomInput) : RoomResult :=
  let walls := calculateRoomWalls room.floorSqft room.roomType room.vaulted room.paintWalls
  let ceiling := calculateCeiling room.floorSqft room.paintCeiling room.paintWalls
  let trim := calculateTrim room.floorSqft room.trimMode room.baseboardLF
    room.paintWalls room.stainedTrimConversion
  let crown := calculateCrownMolding room.crownMoldingLF
  let doors := calculateDoors room.doorSides
  let closets := calculateClosets room.closetsStandard room.closetsWalkIn
  let windows := calculateWindows room.windows
  let accentWalls := calculateAccentWalls room.accentWallsInRoom room.accentWallsStandalone
  let scaffolding := calculateScaffolding room.needsScaffolding
  let wallpaper := calculateWallpaperRemoval room.wallpaperRemovalSqft
  let lineItems :=
    guardItem { category := .walls, cost := walls.cost, roomId := some room.id } ++
    guardItem { category := .ceiling, cost := ceiling.cost, roomId := some room.id } ++
    guardItem { category := .trim, cost := trim.cost, roomId := some room.id } ++
    guardItem { category := .crownMolding, cost := crown.cost, roomId := some room.id } ++
    guardItem { category := .doors, cost := doors.cost, roomId := some room.id } ++
    guardItem { category := .closets, cost := closets.cost, roomId := some room.id } ++
    guardItem { category := .windows, cost := windows.cost, roomId := some room.id } ++
    guardItem { category := .accentWalls, cost := accentWalls.cost, roomId := some room.id } ++
    guardItem { category := .scaffolding, cost := scaffolding.cost, roomId := some room.id } ++
    guardItem { category := .wallpaperRemoval, cost := wallpaper.cost, roomId := some room.id }
  { roomId := room.id
    roomName := room.name
    lineItems := lineItems
    roomTotal := sumCosts lineItems }

/-- The per-room results of `calculateInteriorEstimate`'s room loop. -/
def interiorRoomResults (input : InteriorJobInput) : List RoomResult :=
  input.rooms.map calculateRoom

/-- `allLineItems` after the room loop: the rooms' items concatenated in order. -/
def interiorRoomItems (input : InteriorJobInput) : List LineItem :=
  ((interiorRoomResults input).map (·.lineItems)).flatten

/-- The running subtotal right before the customer-supplied-paint deduction:
room items plus the additional-colors charge when that is positive. -/
def interiorSubtotal1 (input : InteriorJobInput) : ℚ :=
  let subtotal := sumCosts (interiorRoomItems input)
  let additionalColors := calculateAdditionalColors input.numWallColors
  if 0 < additionalColors.cost then subtotal + additionalColors.cost else subtotal

/-- The customer-supplied-paint deduction:
`roundCurrency(subtotal * RATES.CUSTOMER_SUPPLIES_PAINT_DEDUCT)`. -/
def interiorDeduction (input : InteriorJobInput) : ℚ :=
  roundCurrency (interiorSubtotal1 input * Rates.CUSTOMER_SUPPLIES_PAINT_DEDUCT)

/-- Running subtotal after the customer-supplied-paint deduction. -/
def interiorSubtotal2 (input : InteriorJobInput) : ℚ :=
  if input.customerSuppliesPaint then interiorSubtotal1 input - interiorDeduction input
  else interiorSubtotal1 input

/-- Running subtotal after the premium-paint upcharge (the final subtotal). -/
def interiorSubtotal3 (input : InteriorJobInput) : ℚ :=
  if input.premiumPaint then interiorSubtotal2 input + Rates.PREMIUM_PAINT_UPCHARGE
  else interiorSubtotal2 input

/-- `allLineItems` at the end of `calculateInteriorEstimate`: room items
followed by the conditionally pushed job-level items, in source order. -/
def interiorLineItemsAll (input : InteriorJobInput) : List LineItem :=
  let additionalColors := calculateAdditionalColors input.numWallColors
  let setupFeeResult := calculateSetupFee (interiorSubtotal3 input)
  interiorRoomItems input ++
    (if 0 < additionalColors.cost then
      [{ category := .additionalColors, cost := additionalColors.cost, roomId := none }]
     else []) ++
    (if input.customerSuppliesPaint then
      [{ category := .paintOptions, cost := -(interiorDeduction input), roomId := none }]
     else []) ++
    (if input.premiumPaint then
      [{ category := .paintOptions, cost := Rates.PREMIUM_PAINT_UPCHARGE, roomId := none }]
     else []) ++
    (if 0 < setupFeeResult.fee then
      [{ category := .setupFee, cost := setupFeeResult.fee, roomId := none }]
     else [])

/-- The advisory warnings of `calculateInteriorEstimate`, in source order. -/
def interiorWarnings (input : InteriorJobInput) : List Warning :=
  (if input.rooms.length = 0 then [Warning.noRooms] else []) ++
    input.rooms.foldl (fun acc room =>
      acc ++ (if 5000 < room.floorSqft then [Warning.largeRoom room.name] else []) ++
        (if 20 < room.doorSides then [Warning.highDoorCount room.name] else [])) []

/-- `calculateInteriorEstimate`. -/
def calculateInteriorEstimate (input : InteriorJobInput) : EstimateResult :=
  let setupFeeResult := calculateSetupFee (interiorSubtotal3 input)
  { rooms := interiorRoomResults input
    lineItems := interiorLineItemsAll input
    subtotal := interiorSubtotal3 input
    setupFee := setupFeeResult.fee
    total := interiorSubtotal3 input + setupFeeResult.fee
    roomCount := input.rooms.length
    warnings := interiorWarnings input }

/-- `calculateJobTotal`. -/
def calculateJobTotal (subtotal : ℚ) : ℚ :=
  subtotal + (calculateSetupFee subtotal).fee

/-! ## Exterior data model (`src/types/exterior.ts`) -/

/-- `StoryType` enum. -/
inductive StoryType
  | oneStory
  | oneHalfStory
  | twoStory
  | threeStory
deriving DecidableEq, Repr

/-- `FlakingSeverity` enum. -/
inductive FlakingSeverity
  | light
  | medium
  | heavy
deriving DecidableEq, Repr

/-- `ExteriorScope` enum. -/
inductive ExteriorScope
  | full
  | trimOnly
  | sidingOnly
deriving DecidableEq, Repr

/-- `ExteriorLineItemCategory` enum. -/
inductive ExteriorLineItemCategory
  | base
  | height
  | difficulty
  | flaking
  | coats
  | shutters
  | frontDoor
  | garage
  | scopeAdjustment
deriving DecidableEq, Repr

/-- `SideDifficulty` (the cosmetic `side` identifier omitted). -/
structure SideDifficulty where
  nonFlatGround : Bool
  roofAccess : Bool
deriving DecidableEq, Repr

/-- `GarageDoorInput`. -/
structure GarageDoorInput where
  oneCarDoors : ℚ
  twoCarDoors : ℚ
deriving DecidableEq, Repr

/-- `ExteriorJobInput` (cosmetic `id` and `notes` omitted — neither is read
by any calculation). -/
structure ExteriorJobInput where
  houseSqft : ℚ
  storyType : StoryType
  sideDifficulties : List SideDifficulty
  flakingSeverity : FlakingSeverity
  heavyFlakingAdjustment : Option ℚ
  scope : ExteriorScope
  shutterCount : ℚ
  paintFrontDoor : Bool
  garageDoors : GarageDoorInput
deriving DecidableEq, Repr

/-- `ExteriorBreakdown`. -/
structure ExteriorBreakdown where
  heightMultiplier : ℚ
  difficultyAdjustment : ℚ
  flakingAdjustment : ℚ
  totalMultiplier : ℚ
  baseCalculation : ℚ
  afterCoatMultiplier : ℚ
  shuttersCost : ℚ
  frontDoorCost : ℚ
  garageDoorsCost : ℚ
  totalAddOns : ℚ
  fullExteriorTotal : ℚ
  scopeMultiplier : ℚ
  finalTotal : ℚ
deriving DecidableEq, Repr

/-- `ExteriorLineItem` (cosmetic `name`/`basis` strings omitted). -/
structure ExteriorLineItem where
  category : ExteriorLineItemCategory
  cost : ℚ
deriving DecidableEq, Repr

/-- `ExteriorEstimateResult`; `calculatedAt` (a `new Date()` in the source)
is modelled as a rational timestamp supplied by the caller. -/
structure ExteriorEstimateResult where
  input : ExteriorJobInput
  breakdown : ExteriorBreakdown
  lineItems : List ExteriorLineItem
  total : ℚ
  calculatedAt : ℚ
deriving DecidableEq, Repr

/-! ## Exterior engine (`src/lib/calc/exterior.ts`) -/

/-- `getHeightMultiplier`. -/
def getHeightMultiplier (storyType : StoryType) : ℚ :=
  match storyType with
  | .oneStory => Rates.EXTERIOR_HEIGHT_MULT_ONE_STORY
  | .oneHalfStory => Rates.EXTERIOR_HEIGHT_MULT_ONE_HALF_STORY
  | .twoStory => Rates.EXTERIOR_HEIGHT_MULT_TWO_STORY
  | .threeStory => Rates.EXTERIOR_HEIGHT_MULT_THREE_STORY

/-- Result record of `calculateDifficultyAdjustment`. -/
structure DifficultyAdjustmentResult where
  adjustment : ℚ
  nonFlatCount : ℕ
  roofAccessCount : ℕ
deriving DecidableEq, Repr

/-- `calculateDifficultyAdjustment`: count the flagged sides and price each
at the per-side rates. -/
def calculateDifficultyAdjustment
    (sideDifficulties : List SideDifficulty) : DifficultyAdjustmentResult :=
  let nonFlatCount := (sideDifficulties.filter (·.nonFlatGround)).length
  let roofAccessCount := (sideDifficulties.filter (·.roofAccess)).length
  { adjustment :=
      (nonFlatCount : ℚ) * Rates.EXTERIOR_DIFFICULTY_NON_FLAT_GROUND +
        (roofAccessCount : ℚ) * Rates.EXTERIOR_DIFFICULTY_ROOF_ACCESS
    nonFlatCount := nonFlatCount
    roofAccessCount := roofAccessCount }

/-- `getFlakingAdjustment`. -/
def getFlakingAdjustment (severity : FlakingSeverity)
    (heavyAdjustment : Option ℚ) : ℚ :=
  match severity with
  | .light => Rates.EXTERIOR_FLAKING_LIGHT
  | .medium => Rates.EXTERIOR_FLAKING_MEDIUM
  | .heavy =>
    let adj := heavyAdjustment.getD Rates.EXTERIOR_FLAKING_HEAVY_MIN
    min Rates.EXTERIOR_FLAKING_HEAVY_MAX (max Rates.EXTERIOR_FLAKING_HEAVY_MIN adj)

/-- Result record of `calculateAddOns`. -/
structure AddOnsResult where
  shuttersCost : ℚ
  frontDoorCost : ℚ
  garageDoorsCost : ℚ
  total : ℚ
deriving DecidableEq, Repr

/-- `calculateAddOns`: raw count × rate (no clamping or truncation). -/
def calculateAddOns (input : ExteriorJobInput) : AddOnsResult :=
  let shuttersCost := input.shutterCount * Rates.EXTERIOR_ADD_ON_SHUTTER
  let frontDoorCost :=
    if input.paintFrontDoor then Rates.EXTERIOR_ADD_ON_FRONT_DOOR else 0
  let garageDoorsCost :=
    input.garageDoors.oneCarDoors * Rates.EXTERIOR_ADD_ON_GARAGE_1_CAR +
      input.garageDoors.twoCarDoors * Rates.EXTERIOR_ADD_ON_GARAGE_2_CAR
  { shuttersCost := shuttersCost
    frontDoorCost := frontDoorCost
    garageDoorsCost := garageDoorsCost
    total := shuttersCost + frontDoorCost + garageDoorsCost }

/-- `getScopeMultiplier`. -/
def getScopeMultiplier (scope : ExteriorScope) : ℚ :=
  match scope with
  | .full => 1.0
  | .trimOnly => Rates.EXTERIOR_PARTIAL_JOB_MULTIPLIER
  | .sidingOnly => Rates.EXTERIOR_PARTIAL_JOB_MULTIPLIER

/-- The `breakdown` record computed by `calculateExteriorEstimate`. -/
def exteriorBreakdown (input : ExteriorJobInput) : ExteriorBreakdown :=
  let heightMultiplier := getHeightMultiplier input.storyType
  let difficulty := calculateDifficultyAdjustment input.sideDifficulties
  let flakingAdjustment :=
    getFlakingAdjustment input.flakingSeverity input.heavyFlakingAdjustment
  let totalMultiplier := heightMultiplier + difficulty.adjustment + flakingAdjustment
  let baseCalculation :=
    roundCurrency (totalMultiplier * input.houseSqft + Rates.EXTERIOR_BASE_FEE)
  let afterCoatMultiplier :=
    roundCurrency (baseCalculation * Rates.EXTERIOR_COAT_MULTIPLIER)
  let addOns := calculateAddOns input
  let fullExteriorTotal := roundCurrency (afterCoatMultiplier + addOns.total)
  let scopeMultiplier := getScopeMultiplier input.scope
  let finalTotal := roundCurrency (fullExteriorTotal * scopeMultiplier)
  { heightMultiplier := heightMultiplier
    difficultyAdjustment := difficulty.adjustment
    flakingAdjustment := flakingAdjustment
    totalMultiplier := totalMultiplier
    baseCalculation := baseCalculation
    afterCoatMultiplier := afterCoatMultiplier
    shuttersCost := addOns.shuttersCost
    frontDoorCost := addOns.frontDoorCost
    garageDoorsCost := addOns.garageDoorsCost
    totalAddOns := addOns.total
    fullExteriorTotal := fullExteriorTotal
    scopeMultiplier := scopeMultiplier
    finalTotal := finalTotal }

/-- `buildLineItems`: display lines in source order; the conditional lines
are pushed only when their guard holds. -/
def buildLineItems (input : ExteriorJobInput)
    (breakdown : ExteriorBreakdown) : List ExteriorLineItem :=
  [{ category := .base, cost := Rates.EXTERIOR_BASE_FEE },
   { category := .height,
     cost := roundCurrency (breakdown.heightMultiplier * input.houseSqft) }] ++
    (if 0 < breakdown.difficultyAdjustment then
      [{ category := .difficulty,
         cost := roundCurrency (breakdown.difficultyAdjustment * input.houseSqft) }]
     else []) ++
    (if 0 < breakdown.flakingAdjustment then
      [{ category := .flaking,
         cost := roundCurrency (breakdown.flakingAdjustment * input.houseSqft) }]
     else []) ++
    [{ category := .coats,
       cost := roundCurrency (breakdown.afterCoatMultiplier - breakdown.baseCalculation) }] ++
    (if 0 < breakdown.shuttersCost then
      [{ category := .shutters, cost := breakdown.shuttersCost }] else []) ++
    (if 0 < breakdown.frontDoorCost then
      [{ category := .frontDoor, cost := breakdown.frontDoorCost }] else []) ++
    (if 0 < breakdown.garageDoorsCost then
      [{ category := .garage, cost := breakdown.garageDoorsCost }] else []) ++
    (if breakdown.scopeMultiplier < 1.0 then
      [{ category := .scopeAdjustment,
         cost := roundCurrency (breakdown.finalTotal - breakdown.fullExteriorTotal) }]
     else [])

/-- `calculateExteriorEstimate`; `now` stands for the `new Date()` taken at
the end of the computation. -/
def calculateExteriorEstimate (input : ExteriorJobInput) (now : ℚ) :
    ExteriorEstimateResult :=
  let breakdown := exteriorBreakdown input
  { input := input
    breakdown := breakdown
    lineItems := buildLineItems input breakdown
    total := breakdown.finalTotal
    calculatedAt := now }

/-- Sum of exterior line-item costs (the displayed sum the claims speak of). -/
def sumExtCosts (items : List ExteriorLineItem) : ℚ :=
  items.foldl (fun sum item => sum + item.cost) 0

/-! ## Rounding and wholeness lemmas -/

/-- A rational that is an integer (a whole currency amount). -/
def IsWhole (q : ℚ) : Prop := ∃ z : ℤ, q = (z : ℚ)

theorem isWhole_intCast (z : ℤ) : IsWhole (z : ℚ) := ⟨z, rfl⟩

theorem IsWhole.add {q r : ℚ} (hq : IsWhole q) (hr : IsWhole r) : IsWhole (q + r) := by
  obtain ⟨a, rfl⟩ := hq
  obtain ⟨b, rfl⟩ := hr
  exact ⟨a + b, by push_cast; ring⟩

theorem IsWhole.sub {q r : ℚ} (hq : IsWhole q) (hr : IsWhole r) : IsWhole (q - r) := by
  obtain ⟨a, rfl⟩ := hq
  obtain ⟨b, rfl⟩ := hr
  exact ⟨a - b, by push_cast; ring⟩

theorem IsWhole.mul {q r : ℚ} (hq : IsWhole q) (hr : IsWhole r) : IsWhole (q * r) := by
  obtain ⟨a, rfl⟩ := hq
  obtain ⟨b, rfl⟩ := hr
  exact ⟨a * b, by push_cast; ring⟩

theorem jround_intCast (z : ℤ) : jround (z : ℚ) = z := by
  unfold jround
  rw [Int.floor_int_add]
  norm_num

theorem jround_mono {q r : ℚ} (h : q ≤ r) : jround q ≤ jround r :=
  Int.floor_le_floor (by linarith)

theorem isWhole_roundCurrency (q : ℚ) : IsWhole (roundCurrency q) := ⟨jround q, rfl⟩

theorem roundCurrency_of_isWhole {q : ℚ} (h : IsWhole q) : roundCurrency q = q := by
  obtain ⟨z, rfl⟩ := h
  unfold roundCurrency
  rw [jround_intCast]

theorem roundCurrency_nonneg {q : ℚ} (h : 0 ≤ q) : 0 ≤ roundCurrency q := by
  unfold roundCurrency
  have h0 : jround (0 : ℚ) ≤ jround q := jround_mono h
  have : jround ((0 : ℤ) : ℚ) = 0 := jround_intCast 0
  simp only [Int.cast_zero] at this
  exact_mod_cast this ▸ h0

theorem roundCurrency_mono {q r : ℚ} (h : q ≤ r) : roundCurrency q ≤ roundCurrency r := by
  unfold roundCurrency
  exact_mod_cast jround_mono h

theorem roundCurrency_le_of_le_whole {q c : ℚ} (hc : IsWhole c) (h : q ≤ c) :
    roundCurrency q ≤ c := by
  calc roundCurrency q ≤ roundCurrency c := roundCurrency_mono h
    _ = c := roundCurrency_of_isWhole hc

/-- The rounded value never exceeds its argument by more than a half. -/
theorem roundCurrency_le_add_half (q : ℚ) : roundCurrency q ≤ q + 1 / 2 := by
  unfold roundCurrency jround
  exact Int.floor_le _

/-! ## Sum lemmas -/

theorem sumCosts_foldl (l : List LineItem) (s : ℚ) :
    l.foldl (fun sum item => sum + item.cost) s = s + sumCosts l := by
  induction l generalizing s with
  | nil => simp [sumCosts]
  | cons x xs ih =>
    simp only [sumCosts, List.foldl_cons]
    rw [ih, ih]
    ring

theorem sumCosts_nil : sumCosts [] = 0 := rfl

theorem sumCosts_singleton (x : LineItem) : sumCosts [x] = x.cost := by
  simp [sumCosts]

theorem sumCosts_append (a b : List LineItem) :
    sumCosts (a ++ b) = sumCosts a + sumCosts b := by
  unfold sumCosts
  rw [List.foldl_append]
  rw [show List.foldl (fun sum item => sum + item.cost) 0 a = sumCosts a from rfl]
  exact sumCosts_foldl b (sumCosts a)

theorem sumCosts_cons (x : LineItem) (l : List LineItem) :
    sumCosts (x :: l) = x.cost + sumCosts l := by
  have := sumCosts_append [x] l
  simpa [sumCosts_singleton] using this

theorem sumCosts_flatten (ls : List (List LineItem)) :
    sumCosts ls.flatten = (ls.map sumCosts).sum := by
  induction ls with
  | nil => simp [sumCosts]
  | cons x xs ih => simp [List.flatten_cons, sumCosts_append, ih]

theorem sumCosts_nonneg {l : List LineItem} (h : ∀ x ∈ l, 0 ≤ x.cost) :
    0 ≤ sumCosts l := by
  induction l with
  | nil => simp [sumCosts]
  | cons x xs ih =>
    rw [sumCosts_cons]
    have hx := h x (List.mem_cons_self x xs)
    have hxs := ih fun y hy => h y (List.mem_cons_of_mem x hy)
    linarith

theorem sumExtCosts_foldl (l : List ExteriorLineItem) (s : ℚ) :
    l.foldl (fun sum item => sum + item.cost) s = s + sumExtCosts l := by
  induction l generalizing s with
  | nil => simp [sumExtCosts]
  | cons x xs ih =>
    simp only [sumExtCosts, List.foldl_cons]
    rw [ih, ih]
    ring

theorem sumExtCosts_nil : sumExtCosts [] = 0 := rfl

theorem sumExtCosts_singleton (x : ExteriorLineItem) : sumExtCosts [x] = x.cost := by
  simp [sumExtCosts]

theorem sumExtCosts_append (a b : List ExteriorLineItem) :
    sumExtCosts (a ++ b) = sumExtCosts a + sumExtCosts b := by
  unfold sumExtCosts
  rw [List.foldl_append]
  rw [show List.foldl (fun sum item => sum + item.cost) 0 a = sumExtCosts a from rfl]
  exact sumExtCosts_foldl b (sumExtCosts a)

theorem sumExtCosts_cons (x : ExteriorLineItem) (l : List ExteriorLineItem) :
    sumExtCosts (x :: l) = x.cost + sumExtCosts l := by
  have := sumExtCosts_append [x] l
  simpa [sumExtCosts_singleton] using this

/-! ## Guarded-push lemmas -/

theorem sumCosts_guardItem (item : LineItem) :
    sumCosts (guardItem item) = if 0 < item.cost then item.cost else 0 := by
  unfold guardItem
  split <;> simp [sumCosts_singleton, sumCosts_nil]

theorem mem_guardItem {x item : LineItem} (h : x ∈ guardItem item) :
    x = item ∧ 0 < item.cost := by
  unfold guardItem at h
  split at h <;> simp_all

/-! ## Non-negativity of the interior sub-results -/

theorem clampNonNeg_nonneg (v : ℚ) : 0 ≤ clampNonNeg v := le_max_left 0 v

theorem additionalColors_cost_nonneg (numColors : ℚ) :
    0 ≤ (calculateAdditionalColors numColors).cost := by
  unfold calculateAdditionalColors
  dsimp only
  split
  · exact le_refl 0
  · exact roundCurrency_nonneg
      (mul_nonneg (le_max_left _ _) (by norm_num [Rates.ADDITIONAL_COLOR_FEE]))

theorem additionalColors_cost_pos_or_zero (numColors : ℚ) :
    ¬ 0 < (calculateAdditionalColors numColors).cost →
      (calculateAdditionalColors numColors).cost = 0 :=
  fun h => le_antisymm (not_lt.mp h) (additionalColors_cost_nonneg numColors)

theorem setupFee_nonneg (subtotal : ℚ) : 0 ≤ (calculateSetupFee subtotal).fee := by
  unfold calculateSetupFee
  dsimp only
  split
  · exact le_refl 0
  · refine roundCurrency_nonneg ?_
    rename_i h
    have h1 : clampNonNeg subtotal < Rates.SETUP_THRESHOLD := not_le.mp h
    have h2 : (0:ℚ) < Rates.SETUP_MAX_FEE := by norm_num [Rates.SETUP_MAX_FEE]
    exact le_min h2.le (by linarith)

theorem setupFee_le_max (subtotal : ℚ) :
    (calculateSetupFee subtotal).fee ≤ Rates.SETUP_MAX_FEE := by
  unfold calculateSetupFee
  dsimp only
  split
  · norm_num [Rates.SETUP_MAX_FEE]
  · exact roundCurrency_le_of_le_whole ⟨300, by norm_num [Rates.SETUP_MAX_FEE]⟩
      (min_le_left _ _)

theorem setupFee_antitone {s t : ℚ} (h : s ≤ t) :
    (calculateSetupFee t).fee ≤ (calculateSetupFee s).fee := by
  have hfees := setupFee_nonneg s
  have hc : clampNonNeg s ≤ clampNonNeg t := max_le_max (le_refl 0) h
  unfold calculateSetupFee
  unfold calculateSetupFee at hfees
  dsimp only
  dsimp only at hfees
  split
  · exact hfees
  · rename_i ht
    split
    · rename_i hs
      exact absurd (le_trans hs hc) ht
    · exact roundCurrency_mono (min_le_min (le_refl _) (by linarith))

/-- The customer-supplied-paint deduction never exceeds the amount it is
computed from:  `round(0.15 * s) ≤ s` for every `s ≥ 0`. -/
theorem deduction_le_base {s : ℚ} (hs : 0 ≤ s) :
    roundCurrency (s * Rates.CUSTOMER_SUPPLIES_PAINT_DEDUCT) ≤ s := by
  have hval : s * Rates.CUSTOMER_SUPPLIES_PAINT_DEDUCT = s * (3 / 20) := by
    norm_num [Rates.CUSTOMER_SUPPLIES_PAINT_DEDUCT]
  rw [hval]
  rcases le_or_lt (10 / 17 : ℚ) s with h | h
  · have h1 := roundCurrency_le_add_half (s * (3 / 20))
    linarith
  · have h1 : s * (3 / 20) + 1 / 2 < 1 := by nlinarith
    have h2 : jround (s * (3 / 20)) < 1 := by
      unfold jround
      exact_mod_cast Int.floor_lt.mpr (by exact_mod_cast h1)
    have h3 : jround (s * (3 / 20)) ≤ 0 := by omega
    unfold roundCurrency
    calc ((jround (s * (3 / 20)) : ℤ) : ℚ) ≤ ((0 : ℤ) : ℚ) := by exact_mod_cast h3
      _ ≤ s := by simpa using hs

/-- Every line item assembled by `calculateRoom` has positive cost: items
are pushed only when the sub-calculation returned a positive cost. -/
theorem calculateRoom_mem_pos {room : RoomInput} {item : LineItem}
    (h : item ∈ (calculateRoom room).lineItems) : 0 < item.cost := by
  simp only [calculateRoom, List.mem_append] at h
  rcases h with (((((((((h | h) | h) | h) | h) | h) | h) | h) | h) | h) <;>
    exact (mem_guardItem h).1 ▸ (mem_guardItem h).2

theorem interiorRoomItems_mem_nonneg {input : InteriorJobInput} {item : LineItem}
    (h : item ∈ interiorRoomItems input) : 0 ≤ item.cost := by
  simp only [interiorRoomItems, List.mem_flatten, List.mem_map] at h
  obtain ⟨l, ⟨r, hr, rfl⟩, hitem⟩ := h
  simp only [interiorRoomResults, List.mem_map] at hr
  obtain ⟨room, _, rfl⟩ := hr
  exact (calculateRoom_mem_pos hitem).le

theorem interiorSubtotal1_nonneg (input : InteriorJobInput) :
    0 ≤ interiorSubtotal1 input := by
  unfold interiorSubtotal1
  dsimp only
  have hsum : 0 ≤ sumCosts (interiorRoomItems input) :=
    sumCosts_nonneg fun x hx => interiorRoomItems_mem_nonneg hx
  split
  · rename_i hpos
    linarith
  · exact hsum

theorem interiorSubtotal2_nonneg (input : InteriorJobInput) :
    0 ≤ interiorSubtotal2 input := by
  unfold interiorSubtotal2
  have h1 := interiorSubtotal1_nonneg input
  split
  · have hd : interiorDeduction input ≤ interiorSubtotal1 input :=
      deduction_le_base h1
    linarith
  · exact h1

theorem interiorSubtotal3_nonneg (input : InteriorJobInput) :
    0 ≤ interiorSubtotal3 input := by
  unfold interiorSubtotal3
  have h2 := interiorSubtotal2_nonneg input
  split
  · have : (0:ℚ) ≤ Rates.PREMIUM_PAINT_UPCHARGE := by
      norm_num [Rates.PREMIUM_PAINT_UPCHARGE]
    linarith
  · exact h2

/-- The line items of the interior estimate sum to the final total. -/
theorem interior_sum_helper (input : InteriorJobInput) :
    sumCosts (interiorLineItemsAll input) =
      interiorSubtotal3 input + (calculateSetupFee (interiorSubtotal3 input)).fee := by
  unfold interiorLineItemsAll
  dsimp only
  rw [sumCosts_append, sumCosts_append, sumCosts_append, sumCosts_append]
  have e1 : sumCosts (interiorRoomItems input) +
      sumCosts (if 0 < (calculateAdditionalColors input.numWallColors).cost then
        [{ category := .additionalColors,
           cost := (calculateAdditionalColors input.numWallColors).cost, roomId := none }]
       else []) = interiorSubtotal1 input := by
    unfold interiorSubtotal1
    dsimp only
    by_cases hc : 0 < (calculateAdditionalColors input.numWallColors).cost
    · simp [hc, sumCosts_singleton]
    · simp [hc, sumCosts_nil]
  have e2 : sumCosts (if input.customerSuppliesPaint then
      [{ category := .paintOptions, cost := -(interiorDeduction input), roomId := none }]
     else []) = interiorSubtotal2 input - interiorSubtotal1 input := by
    unfold interiorSubtotal2
    cases hcsp : input.customerSuppliesPaint
    · simp [sumCosts_nil]
    · simp [sumCosts_singleton]
  have e3 : sumCosts (if input.premiumPaint then
      [{ category := .paintOptions, cost := Rates.PREMIUM_PAINT_UPCHARGE, roomId := none }]
     else []) = interiorSubtotal3 input - interiorSubtotal2 input := by
    unfold interiorSubtotal3
    cases hpp : input.premiumPaint
    · simp [sumCosts_nil]
    · simp [sumCosts_singleton]
  have e4 : sumCosts (if 0 < (calculateSetupFee (interiorSubtotal3 input)).fee then
      [{ category := .setupFee,
         cost := (calculateSetupFee (interiorSubtotal3 input)).fee, roomId := none }]
     else []) = (calculateSetupFee (interiorSubtotal3 input)).fee := by
    by_cases hf : 0 < (calculateSetupFee (interiorSubtotal3 input)).fee
    · simp [hf, sumCosts_singleton]
    · simp [hf, sumCosts_nil]
      exact (le_antisymm (not_lt.mp hf) (setupFee_nonneg _)).symm
  linarith [e1, e2, e3, e4]

/-! ## Exterior breakdown field equations and wholeness facts -/

theorem bd_height (input : ExteriorJobInput) :
    (exteriorBreakdown input).heightMultiplier = getHeightMultiplier input.storyType := rfl

theorem bd_difficulty (input : ExteriorJobInput) :
    (exteriorBreakdown input).difficultyAdjustment =
      (calculateDifficultyAdjustment input.sideDifficulties).adjustment := rfl

theorem bd_flaking (input : ExteriorJobInput) :
    (exteriorBreakdown input).flakingAdjustment =
      getFlakingAdjustment input.flakingSeverity input.heavyFlakingAdjustment := rfl

theorem bd_shutters (input : ExteriorJobInput) :
    (exteriorBreakdown input).shuttersCost = (calculateAddOns input).shuttersCost := rfl

theorem bd_frontDoor (input : ExteriorJobInput) :
    (exteriorBreakdown input).frontDoorCost = (calculateAddOns input).frontDoorCost := rfl

theorem bd_garage (input : ExteriorJobInput) :
    (exteriorBreakdown input).garageDoorsCost = (calculateAddOns input).garageDoorsCost := rfl

theorem bd_scope (input : ExteriorJobInput) :
    (exteriorBreakdown input).scopeMultiplier = getScopeMultiplier input.scope := rfl

theorem difficultyAdjustment_nonneg (sides : List SideDifficulty) :
    0 ≤ (calculateDifficultyAdjustment sides).adjustment := by
  unfold calculateDifficultyAdjustment
  dsimp only
  have h1 : (0:ℚ) ≤ ((sides.filter (fun s => s.nonFlatGround)).length : ℚ) := by positivity
  have h2 : (0:ℚ) ≤ ((sides.filter (fun s => s.roofAccess)).length : ℚ) := by positivity
  have h3 : (0:ℚ) ≤ Rates.EXTERIOR_DIFFICULTY_NON_FLAT_GROUND := by
    norm_num [Rates.EXTERIOR_DIFFICULTY_NON_FLAT_GROUND]
  have h4 : (0:ℚ) ≤ Rates.EXTERIOR_DIFFICULTY_ROOF_ACCESS := by
    norm_num [Rates.EXTERIOR_DIFFICULTY_ROOF_ACCESS]
  have := mul_nonneg h1 h3
  have := mul_nonneg h2 h4
  linarith

theorem flakingAdjustment_nonneg (severity : FlakingSeverity) (o : Option ℚ) :
    0 ≤ getFlakingAdjustment severity o := by
  unfold getFlakingAdjustment
  cases severity
  · norm_num [Rates.EXTERIOR_FLAKING_LIGHT]
  · norm_num [Rates.EXTERIOR_FLAKING_MEDIUM]
  · dsimp only
    refine le_min (by norm_num [Rates.EXTERIOR_FLAKING_HEAVY_MAX]) ?_
    exact le_trans (by norm_num [Rates.EXTERIOR_FLAKING_HEAVY_MIN]) (le_max_left _ _)

theorem frontDoorCost_isWhole (input : ExteriorJobInput) :
    IsWhole (calculateAddOns input).frontDoorCost := by
  unfold calculateAddOns
  dsimp only
  split
  · exact ⟨250, by norm_num [Rates.EXTERIOR_ADD_ON_FRONT_DOOR]⟩
  · exact ⟨0, by norm_num⟩

theorem frontDoorCost_nonneg (input : ExteriorJobInput) :
    0 ≤ (calculateAddOns input).frontDoorCost := by
  unfold calculateAddOns
  dsimp only
  split
  · norm_num [Rates.EXTERIOR_ADD_ON_FRONT_DOOR]
  · exact le_refl 0

theorem sumExtCosts_pair (x y : ExteriorLineItem) :
    sumExtCosts [x, y] = x.cost + y.cost := by
  simp [sumExtCosts]

/-- When each multiplier component times the house area is a whole number
and the shutter and garage add-on costs are non-negative whole numbers,
the exterior display lines sum exactly to the final total. -/
theorem exterior_sum_helper (input : ExteriorJobInput)
    (h1 : IsWhole (getHeightMultiplier input.storyType * input.houseSqft))
    (h2 : IsWhole ((calculateDifficultyAdjustment input.sideDifficulties).adjustment *
      input.houseSqft))
    (h3 : IsWhole (getFlakingAdjustment input.flakingSeverity input.heavyFlakingAdjustment *
      input.houseSqft))
    (hsW : IsWhole (calculateAddOns input).shuttersCost)
    (hs0 : 0 ≤ (calculateAddOns input).shuttersCost)
    (hgW : IsWhole (calculateAddOns input).garageDoorsCost)
    (hg0 : 0 ≤ (calculateAddOns input).garageDoorsCost) :
    sumExtCosts (buildLineItems input (exteriorBreakdown input)) =
      (exteriorBreakdown input).finalTotal := by
  have hda0 : 0 ≤ (calculateDifficultyAdjustment input.sideDifficulties).adjustment :=
    difficultyAdjustment_nonneg _
  have hfa0 : 0 ≤ getFlakingAdjustment input.flakingSeverity input.heavyFlakingAdjustment :=
    flakingAdjustment_nonneg _ _
  have hFW : IsWhole (calculateAddOns input).frontDoorCost := frontDoorCost_isWhole input
  have hF0 : 0 ≤ (calculateAddOns input).frontDoorCost := frontDoorCost_nonneg input
  have htot : (calculateAddOns input).total =
      (calculateAddOns input).shuttersCost + (calculateAddOns input).frontDoorCost +
        (calculateAddOns input).garageDoorsCost := rfl
  have hbase : (exteriorBreakdown input).baseCalculation =
      getHeightMultiplier input.storyType * input.houseSqft +
        (calculateDifficultyAdjustment input.sideDifficulties).adjustment * input.houseSqft +
        getFlakingAdjustment input.flakingSeverity input.heavyFlakingAdjustment *
          input.houseSqft + 1750 := by
    have harith : (getHeightMultiplier input.storyType +
        (calculateDifficultyAdjustment input.sideDifficulties).adjustment +
        getFlakingAdjustment input.flakingSeverity input.heavyFlakingAdjustment) *
          input.houseSqft + Rates.EXTERIOR_BASE_FEE =
        getHeightMultiplier input.storyType * input.houseSqft +
          (calculateDifficultyAdjustment input.sideDifficulties).adjustment * input.houseSqft +
          getFlakingAdjustment input.flakingSeverity input.heavyFlakingAdjustment *
            input.houseSqft + 1750 := by
      unfold Rates.EXTERIOR_BASE_FEE
      ring
    calc (exteriorBreakdown input).baseCalculation
        = roundCurrency ((getHeightMultiplier input.storyType +
            (calculateDifficultyAdjustment input.sideDifficulties).adjustment +
            getFlakingAdjustment input.flakingSeverity input.heavyFlakingAdjustment) *
              input.houseSqft + Rates.EXTERIOR_BASE_FEE) := rfl
      _ = roundCurrency (getHeightMultiplier input.storyType * input.houseSqft +
            (calculateDifficultyAdjustment input.sideDifficulties).adjustment *
              input.houseSqft +
            getFlakingAdjustment input.flakingSeverity input.heavyFlakingAdjustment *
              input.houseSqft + 1750) := by rw [harith]
      _ = _ := roundCurrency_of_isWhole (((h1.add h2).add h3).add ⟨1750, by norm_num⟩)
  have wbase : IsWhole (exteriorBreakdown input).baseCalculation := by
    rw [hbase]
    exact ((h1.add h2).add h3).add ⟨1750, by norm_num⟩
  have wafter : IsWhole (exteriorBreakdown input).afterCoatMultiplier :=
    isWhole_roundCurrency _
  have hfull : (exteriorBreakdown input).fullExteriorTotal =
      (exteriorBreakdown input).afterCoatMultiplier +
        ((calculateAddOns input).shuttersCost + (calculateAddOns input).frontDoorCost +
          (calculateAddOns input).garageDoorsCost) := by
    calc (exteriorBreakdown input).fullExteriorTotal
        = roundCurrency ((exteriorBreakdown input).afterCoatMultiplier +
            (calculateAddOns input).total) := rfl
      _ = _ := by
          rw [htot]
          exact roundCurrency_of_isWhole (wafter.add ((hsW.add hFW).add hgW))
  have wfull : IsWhole (exteriorBreakdown input).fullExteriorTotal :=
    isWhole_roundCurrency _
  have wfin : IsWhole (exteriorBreakdown input).finalTotal :=
    isWhole_roundCurrency _
  have hround1 : roundCurrency (getHeightMultiplier input.storyType * input.houseSqft) =
      getHeightMultiplier input.storyType * input.houseSqft := roundCurrency_of_isWhole h1
  have td : sumExtCosts (if 0 < (calculateDifficultyAdjustment input.sideDifficulties).adjustment
      then [{ category := .difficulty,
              cost := roundCurrency
                ((calculateDifficultyAdjustment input.sideDifficulties).adjustment *
                  input.houseSqft) }]
      else []) =
      (calculateDifficultyAdjustment input.sideDifficulties).adjustment * input.houseSqft := by
    by_cases hd : 0 < (calculateDifficultyAdjustment input.sideDifficulties).adjustment
    · simp only [hd, if_true, sumExtCosts_singleton]
      exact roundCurrency_of_isWhole h2
    · have hz : (calculateDifficultyAdjustment input.sideDifficulties).adjustment = 0 :=
        le_antisymm (not_lt.mp hd) hda0
      simp [hd, sumExtCosts_nil, hz]
  have tf : sumExtCosts (if 0 < getFlakingAdjustment input.flakingSeverity
        input.heavyFlakingAdjustment
      then [{ category := .flaking,
              cost := roundCurrency (getFlakingAdjustment input.flakingSeverity
                input.heavyFlakingAdjustment * input.houseSqft) }]
      else []) =
      getFlakingAdjustment input.flakingSeverity input.heavyFlakingAdjustment *
        input.houseSqft := by
    by_cases hd : 0 < getFlakingAdjustment input.flakingSeverity input.heavyFlakingAdjustment
    · simp only [hd, if_true, sumExtCosts_singleton]
      exact roundCurrency_of_isWhole h3
    · have hz : getFlakingAdjustment input.flakingSeverity input.heavyFlakingAdjustment = 0 :=
        le_antisymm (not_lt.mp hd) hfa0
      simp [hd, sumExtCosts_nil, hz]
  have tcoats : sumExtCosts
      [{ category := .coats,
         cost := roundCurrency ((exteriorBreakdown input).afterCoatMultiplier -
           (exteriorBreakdown input).baseCalculation) }] =
      (exteriorBreakdown input).afterCoatMultiplier -
        (exteriorBreakdown input).baseCalculation := by
    rw [sumExtCosts_singleton]
    exact roundCurrency_of_isWhole (wafter.sub wbase)
  have ts : sumExtCosts (if 0 < (calculateAddOns input).shuttersCost
      then [{ category := .shutters, cost := (calculateAddOns input).shuttersCost }]
      else []) = (calculateAddOns input).shuttersCost := by
    by_cases hd : 0 < (calculateAddOns input).shuttersCost
    · simp [hd, sumExtCosts_singleton]
    · have hz : (calculateAddOns input).shuttersCost = 0 := le_antisymm (not_lt.mp hd) hs0
      simp [hd, sumExtCosts_nil, hz]
  have tfd : sumExtCosts (if 0 < (calculateAddOns input).frontDoorCost
      then [{ category := .frontDoor, cost := (calculateAddOns input).frontDoorCost }]
      else []) = (calculateAddOns input).frontDoorCost := by
    by_cases hd : 0 < (calculateAddOns input).frontDoorCost
    · simp [hd, sumExtCosts_singleton]
    · have hz : (calculateAddOns input).frontDoorCost = 0 := le_antisymm (not_lt.mp hd) hF0
      simp [hd, sumExtCosts_nil, hz]
  have tg : sumExtCosts (if 0 < (calculateAddOns input).garageDoorsCost
      then [{ category := .garage, cost := (calculateAddOns input).garageDoorsCost }]
      else []) = (calculateAddOns input).garageDoorsCost := by
    by_cases hd : 0 < (calculateAddOns input).garageDoorsCost
    · simp [hd, sumExtCosts_singleton]
    · have hz : (calculateAddOns input).garageDoorsCost = 0 := le_antisymm (not_lt.mp hd) hg0
      simp [hd, sumExtCosts_nil, hz]
  have tscope : sumExtCosts (if getScopeMultiplier input.scope < 1.0
      then [{ category := .scopeAdjustment,
              cost := roundCurrency ((exteriorBreakdown input).finalTotal -
                (exteriorBreakdown input).fullExteriorTotal) }]
      else []) =
      (exteriorBreakdown input).finalTotal - (exteriorBreakdown input).fullExteriorTotal := by
    cases hscope : input.scope
    · have hm1 : getScopeMultiplier ExteriorScope.full = 1 := by
        norm_num [getScopeMultiplier]
      have hfin : (exteriorBreakdown input).finalTotal =
          (exteriorBreakdown input).fullExteriorTotal := by
        calc (exteriorBreakdown input).finalTotal
            = roundCurrency ((exteriorBreakdown input).fullExteriorTotal *
                getScopeMultiplier input.scope) := rfl
          _ = roundCurrency ((exteriorBreakdown input).fullExteriorTotal) := by
              rw [hscope, hm1, mul_one]
          _ = _ := roundCurrency_of_isWhole wfull
      norm_num [getScopeMultiplier, hfin, sumExtCosts_nil]
    · have hlt : getScopeMultiplier ExteriorScope.trimOnly < 1.0 := by
        norm_num [getScopeMultiplier, Rates.EXTERIOR_PARTIAL_JOB_MULTIPLIER]
      simp only [hlt, if_true, sumExtCosts_singleton]
      exact roundCurrency_of_isWhole (wfin.sub wfull)
    · have hlt : getScopeMultiplier ExteriorScope.sidingOnly < 1.0 := by
        norm_num [getScopeMultiplier, Rates.EXTERIOR_PARTIAL_JOB_MULTIPLIER]
      simp only [hlt, if_true, sumExtCosts_singleton]
      exact roundCurrency_of_isWhole (wfin.sub wfull)
  unfold buildLineItems
  simp only [bd_height, bd_difficulty, bd_flaking, bd_shutters, bd_frontDoor, bd_garage,
    bd_scope]
  rw [sumExtCosts_append, sumExtCosts_append, sumExtCosts_append, sumExtCosts_append,
    sumExtCosts_append, sumExtCosts_append, sumExtCosts_append]
  rw [sumExtCosts_pair, td, tf, tcoats, ts, tfd, tg, tscope, hround1]
  unfold Rates.EXTERIOR_BASE_FEE
  dsimp only
  linarith [hbase, hfull]

/-! ## Spec-side reference definitions (refinement targets) -/

theorem roundCurrency_max_whole {x c : ℚ} (hc : IsWhole c) :
    roundCurrency (max x c) = max (roundCurrency x) c := by
  rcases le_total x c with h | h
  · rw [max_eq_right h, roundCurrency_of_isWhole hc,
      max_eq_right (roundCurrency_le_of_le_whole hc h)]
  · rw [max_eq_left h, max_eq_left]
    have h1 := roundCurrency_mono h
    rw [roundCurrency_of_isWhole hc] at h1
    exact h1

/-- The per-category wall multiplier exactly as the spec words it:
2.8 / 3.1 / 4.1 plus 0.5 when the ceiling is vaulted. -/
def specWallMultiplier (roomType : RoomType) (vaulted : Bool) : ℚ :=
  (match roomType with
    | RoomType.general => 2.8
    | RoomType.kitchen => 3.1
    | RoomType.bathroom => 4.1) + (if vaulted then 0.5 else 0)

/-- The job-level adjustment pipeline in the spec's order: room totals,
plus the additional-colors charge, minus 15% of that running subtotal when
the customer supplies paint, plus the flat premium-paint upcharge. -/
def specAdjustedSubtotal (input : InteriorJobInput) : ℚ :=
  let roomsSubtotal := ((input.rooms.map calculateRoom).map (fun r => r.roomTotal)).sum
  let withColors := roomsSubtotal + (calculateAdditionalColors input.numWallColors).cost
  let afterDeduction :=
    if input.customerSuppliesPaint then
      withColors - roundCurrency (withColors * Rates.CUSTOMER_SUPPLIES_PAINT_DEDUCT)
    else withColors
  if input.premiumPaint then afterDeduction + Rates.PREMIUM_PAINT_UPCHARGE
  else afterDeduction

/-- Spec-order final total: adjusted subtotal plus the setup fee computed
against that adjusted subtotal. -/
def specInteriorTotal (input : InteriorJobInput) : ℚ :=
  specAdjustedSubtotal input + (calculateSetupFee (specAdjustedSubtotal input)).fee

theorem sumCosts_interiorRoomItems (input : InteriorJobInput) :
    sumCosts (interiorRoomItems input) =
      ((input.rooms.map calculateRoom).map (fun r => r.roomTotal)).sum := by
  unfold interiorRoomItems interiorRoomResults
  rw [sumCosts_flatten, List.map_map, List.map_map, List.map_map]
  refine congrArg List.sum ?_
  refine List.map_congr_left fun room _ => ?_
  rfl

theorem interiorSubtotal1_eq (input : InteriorJobInput) :
    interiorSubtotal1 input =
      ((input.rooms.map calculateRoom).map (fun r => r.roomTotal)).sum +
        (calculateAdditionalColors input.numWallColors).cost := by
  unfold interiorSubtotal1
  dsimp only
  rw [sumCosts_interiorRoomItems]
  split
  · rfl
  · rename_i hneg
    rw [additionalColors_cost_pos_or_zero input.numWallColors hneg]
    ring

theorem interiorSubtotal3_eq_spec (input : InteriorJobInput) :
    interiorSubtotal3 input = specAdjustedSubtotal input := by
  unfold specAdjustedSubtotal interiorSubtotal3 interiorSubtotal2 interiorDeduction
  dsimp only
  rw [interiorSubtotal1_eq]

/-! ## Concrete inputs used by the claims -/

/-- A 200 sq ft general room, walls only (the repo's own unit-test room). -/
def exampleRoom : RoomInput :=
  { id := "r1"
    name := "Room 1"
    floorSqft := 200
    roomType := RoomType.general
    paintWalls := true
    paintCeiling := false
    vaulted := false
    trimMode := TrimMode.noTrim
    baseboardLF := 0
    stainedTrimConversion := false
    crownMoldingLF := 0
    doorSides := 0
    closetsStandard := 0
    closetsWalkIn := 0
    windows := []
    accentWallsInRoom := 0
    accentWallsStandalone := 0
    needsScaffolding := false
    wallpaperRemovalSqft := 0 }

/-- The empty interior job of the empty-room-list scenario: no rooms, one
wall color, both paint options off. -/
def emptyInteriorJob : InteriorJobInput :=
  { rooms := []
    numWallColors := 1
    customerSuppliesPaint := false
    premiumPaint := false }

/-- One-story, 2000 sq ft, full scope, all sides flat, light flaking, no
add-ons: the spec's exterior round-trip example. -/
def exteriorExampleJob : ExteriorJobInput :=
  { houseSqft := 2000
    storyType := StoryType.oneStory
    sideDifficulties :=
      [{ nonFlatGround := false, roofAccess := false },
       { nonFlatGround := false, roofAccess := false },
       { nonFlatGround := false, roofAccess := false },
       { nonFlatGround := false, roofAccess := false }]
    flakingSeverity := FlakingSeverity.light
    heavyFlakingAdjustment := none
    scope := ExteriorScope.full
    shutterCount := 0
    paintFrontDoor := false
    garageDoors := { oneCarDoors := 0, twoCarDoors := 0 } }

/-- A 1001 sq ft one-story house whose front side has non-flat ground:
the height line rounds 1251.25 to 1251 and the difficulty line rounds
250.25 to 250, while the base calculation rounds 3251.5 once to 3252, so
the displayed lines drop a dollar. -/
def exteriorDriftJob : ExteriorJobInput :=
  { houseSqft := 1001
    storyType := StoryType.oneStory
    sideDifficulties :=
      [{ nonFlatGround := true, roofAccess := false },
       { nonFlatGround := false, roofAccess := false },
       { nonFlatGround := false, roofAccess := false },
       { nonFlatGround := false, roofAccess := false }]
    flakingSeverity := FlakingSeverity.light
    heavyFlakingAdjustment := none
    scope := ExteriorScope.full
    shutterCount := 0
    paintFrontDoor := false
    garageDoors := { oneCarDoors := 0, twoCarDoors := 0 } }

/-- An exterior job with a negative shutter count. -/
def exteriorNegShutterJob : ExteriorJobInput :=
  { houseSqft := 2000
    storyType := StoryType.oneStory
    sideDifficulties :=
      [{ nonFlatGround := false, roofAccess := false },
       { nonFlatGround := false, roofAccess := false },
       { nonFlatGround := false, roofAccess := false },
       { nonFlatGround := false, roofAccess := false }]
    flakingSeverity := FlakingSeverity.light
    heavyFlakingAdjustment := none
    scope := ExteriorScope.full
    shutterCount := -1
    paintFrontDoor := false
    garageDoors := { oneCarDoors := 0, twoCarDoors := 0 } }

/-- One-story, 2000 sq ft, two shutters, front door, one 1-car garage door. -/
def exteriorWitnessJob : ExteriorJobInput :=
  { houseSqft := 2000
    storyType := StoryType.oneStory
    sideDifficulties :=
      [{ nonFlatGround := false, roofAccess := false },
       { nonFlatGround := false, roofAccess := false },
       { nonFlatGround := false, roofAccess := false },
       { nonFlatGround := false, roofAccess := false }]
    flakingSeverity := FlakingSeverity.light
    heavyFlakingAdjustment := none
    scope := ExteriorScope.full
    shutterCount := 2
    paintFrontDoor := true
    garageDoors := { oneCarDoors := 1, twoCarDoors := 0 } }

/-! ## Claim theorems -/

/-- C1 (amended): for every interior job the costs of the returned line
items (room-level and job-level, the setup-fee line included) sum exactly
to the returned total.  For an exterior job the base-fee, height,
difficulty, flaking, two-coat, add-on and scope-adjustment lines built by
`buildLineItems` sum to `finalTotal` provided each multiplier component
times the house area is a whole number and the shutter and garage-door
counts are non-negative whole numbers; without those conditions the
independently rounded height/difficulty/flaking lines can drift from the
once-rounded base calculation. -/
theorem c1_lineItems_sum_to_total :
    (∀ input : InteriorJobInput,
      sumCosts (calculateInteriorEstimate input).lineItems =
        (calculateInteriorEstimate input).total) ∧
    (∀ (input : ExteriorJobInput) (now : ℚ),
      IsWhole (getHeightMultiplier input.storyType * input.houseSqft) →
      IsWhole ((calculateDifficultyAdjustment input.sideDifficulties).adjustment *
        input.houseSqft) →
      IsWhole (getFlakingAdjustment input.flakingSeverity input.heavyFlakingAdjustment *
        input.houseSqft) →
      IsWhole input.shutterCount → 0 ≤ input.shutterCount →
      IsWhole input.garageDoors.oneCarDoors → 0 ≤ input.garageDoors.oneCarDoors →
      IsWhole input.garageDoors.twoCarDoors → 0 ≤ input.garageDoors.twoCarDoors →
      sumExtCosts (calculateExteriorEstimate input now).lineItems =
        (calculateExteriorEstimate input now).total) := by
  constructor
  · intro input
    exact interior_sum_helper input
  · intro input now hh hd hf hsw hs0 hg1w hg10 hg2w hg20
    have hSdef : (calculateAddOns input).shuttersCost =
        input.shutterCount * Rates.EXTERIOR_ADD_ON_SHUTTER := rfl
    have hGdef : (calculateAddOns input).garageDoorsCost =
        input.garageDoors.oneCarDoors * Rates.EXTERIOR_ADD_ON_GARAGE_1_CAR +
          input.garageDoors.twoCarDoors * Rates.EXTERIOR_ADD_ON_GARAGE_2_CAR := rfl
    have hsW : IsWhole (calculateAddOns input).shuttersCost := by
      rw [hSdef]
      exact hsw.mul ⟨75, by norm_num [Rates.EXTERIOR_ADD_ON_SHUTTER]⟩
    have hs0' : 0 ≤ (calculateAddOns input).shuttersCost := by
      rw [hSdef]
      exact mul_nonneg hs0 (by norm_num [Rates.EXTERIOR_ADD_ON_SHUTTER])
    have hgW : IsWhole (calculateAddOns input).garageDoorsCost := by
      rw [hGdef]
      exact (hg1w.mul ⟨200, by norm_num [Rates.EXTERIOR_ADD_ON_GARAGE_1_CAR]⟩).add
        (hg2w.mul ⟨400, by norm_num [Rates.EXTERIOR_ADD_ON_GARAGE_2_CAR]⟩)
    have hg0' : 0 ≤ (calculateAddOns input).garageDoorsCost := by
      rw [hGdef]
      exact add_nonneg
        (mul_nonneg hg10 (by norm_num [Rates.EXTERIOR_ADD_ON_GARAGE_1_CAR]))
        (mul_nonneg hg20 (by norm_num [Rates.EXTERIOR_ADD_ON_GARAGE_2_CAR]))
    exact exterior_sum_helper input hh hd hf hsW hs0' hgW hg0'

/-- C1 counterexample: on a 1001 sq ft one-story full-scope house with one
non-flat side, light flaking and no add-ons, the displayed exterior line
items sum to 5202 while the returned total is 5203, so the claim as stated
is false. -/
theorem c1_counterexample :
    sumExtCosts (calculateExteriorEstimate exteriorDriftJob 0).lineItems ≠
      (calculateExteriorEstimate exteriorDriftJob 0).total := by
  have h1 : sumExtCosts (calculateExteriorEstimate exteriorDriftJob 0).lineItems = 5202 := by
    norm_num [calculateExteriorEstimate, exteriorBreakdown, buildLineItems, sumExtCosts,
      exteriorDriftJob, getHeightMultiplier, calculateDifficultyAdjustment,
      getFlakingAdjustment, calculateAddOns, getScopeMultiplier, roundCurrency, jround,
      Rates.EXTERIOR_HEIGHT_MULT_ONE_STORY, Rates.EXTERIOR_DIFFICULTY_NON_FLAT_GROUND,
      Rates.EXTERIOR_DIFFICULTY_ROOF_ACCESS, Rates.EXTERIOR_FLAKING_LIGHT,
      Rates.EXTERIOR_BASE_FEE, Rates.EXTERIOR_COAT_MULTIPLIER,
      Rates.EXTERIOR_ADD_ON_SHUTTER, Rates.EXTERIOR_ADD_ON_GARAGE_1_CAR,
      Rates.EXTERIOR_ADD_ON_GARAGE_2_CAR, List.filter]
  have h2 : (calculateExteriorEstimate exteriorDriftJob 0).total = 5203 := by
    norm_num [calculateExteriorEstimate, exteriorBreakdown, exteriorDriftJob,
      getHeightMultiplier, calculateDifficultyAdjustment, getFlakingAdjustment,
      calculateAddOns, getScopeMultiplier, roundCurrency, jround,
      Rates.EXTERIOR_HEIGHT_MULT_ONE_STORY, Rates.EXTERIOR_DIFFICULTY_NON_FLAT_GROUND,
      Rates.EXTERIOR_DIFFICULTY_ROOF_ACCESS, Rates.EXTERIOR_FLAKING_LIGHT,
      Rates.EXTERIOR_BASE_FEE, Rates.EXTERIOR_COAT_MULTIPLIER,
      Rates.EXTERIOR_ADD_ON_SHUTTER, Rates.EXTERIOR_ADD_ON_GARAGE_1_CAR,
      Rates.EXTERIOR_ADD_ON_GARAGE_2_CAR, List.filter]
  rw [h1, h2]
  norm_num

/-- C1 witness: the amended exterior sum property applied to a concrete
2000 sq ft one-story job with two shutters, a front door and a 1-car
garage door. -/
theorem c1_lineItems_sum_to_total_witness :
    sumExtCosts (calculateExteriorEstimate exteriorWitnessJob 0).lineItems =
      (calculateExteriorEstimate exteriorWitnessJob 0).total :=
  c1_lineItems_sum_to_total.2 exteriorWitnessJob 0
    ⟨2500, by norm_num [exteriorWitnessJob, getHeightMultiplier,
      Rates.EXTERIOR_HEIGHT_MULT_ONE_STORY]⟩
    ⟨0, by norm_num [exteriorWitnessJob, calculateDifficultyAdjustment,
      Rates.EXTERIOR_DIFFICULTY_NON_FLAT_GROUND, Rates.EXTERIOR_DIFFICULTY_ROOF_ACCESS,
      List.filter]⟩
    ⟨0, by norm_num [exteriorWitnessJob, getFlakingAdjustment,
      Rates.EXTERIOR_FLAKING_LIGHT]⟩
    ⟨2, by norm_num [exteriorWitnessJob]⟩ (by norm_num [exteriorWitnessJob])
    ⟨1, by norm_num [exteriorWitnessJob]⟩ (by norm_num [exteriorWitnessJob])
    ⟨0, by norm_num [exteriorWitnessJob]⟩ (by norm_num [exteriorWitnessJob])

/-- C2 (amended): `calculateDoors` truncates the side count with `floor`
and clamps it to 0 before multiplying by the per-side rate, so its cost is
non-negative for every real input.  `calculateAddOns`, by contrast,
multiplies the raw shutter and garage-door counts by their rates with no
clamping or truncation, so its costs are non-negative only when those
counts are non-negative. -/
theorem c2_doors_clamped_addOns_raw :
    (∀ sides : ℚ,
      (calculateDoors sides).cost =
        roundCurrency (clampNonNeg (jfloor sides) * Rates.DOOR_PER_SIDE) ∧
      0 ≤ (calculateDoors sides).cost) ∧
    (∀ input : ExteriorJobInput,
      0 ≤ input.shutterCount →
      0 ≤ input.garageDoors.oneCarDoors →
      0 ≤ input.garageDoors.twoCarDoors →
      0 ≤ (calculateAddOns input).shuttersCost ∧
      0 ≤ (calculateAddOns input).frontDoorCost ∧
      0 ≤ (calculateAddOns input).garageDoorsCost ∧
      0 ≤ (calculateAddOns input).total) := by
  constructor
  · intro sides
    unfold calculateDoors
    dsimp only
    split
    · rename_i hle
      have hz : clampNonNeg (jfloor sides) = 0 :=
        le_antisymm hle (clampNonNeg_nonneg _)
      rw [hz]
      norm_num [roundCurrency, jround]
    · exact ⟨rfl, roundCurrency_nonneg
        (mul_nonneg (clampNonNeg_nonneg _) (by norm_num [Rates.DOOR_PER_SIDE]))⟩
  · intro input hs hg1 hg2
    have hS : 0 ≤ (calculateAddOns input).shuttersCost :=
      mul_nonneg hs (by norm_num [Rates.EXTERIOR_ADD_ON_SHUTTER])
    have hF : 0 ≤ (calculateAddOns input).frontDoorCost := frontDoorCost_nonneg input
    have hG : 0 ≤ (calculateAddOns input).garageDoorsCost :=
      add_nonneg (mul_nonneg hg1 (by norm_num [Rates.EXTERIOR_ADD_ON_GARAGE_1_CAR]))
        (mul_nonneg hg2 (by norm_num [Rates.EXTERIOR_ADD_ON_GARAGE_2_CAR]))
    exact ⟨hS, hF, hG, add_nonneg (add_nonneg hS hF) hG⟩

/-- C2 counterexample: a shutter count of -1 flows through
`calculateAddOns` unclamped and produces a negative shutters cost of
-75, so the claim that every add-on cost is non-negative for every input
is false. -/
theorem c2_counterexample :
    (calculateAddOns exteriorNegShutterJob).shuttersCost = -75 ∧
      (calculateAddOns exteriorNegShutterJob).shuttersCost < 0 := by
  norm_num [calculateAddOns, exteriorNegShutterJob, Rates.EXTERIOR_ADD_ON_SHUTTER]

/-- C2 witness: the amended add-on non-negativity applied to a concrete
job with two shutters, a front door and one 1-car garage door. -/
theorem c2_doors_clamped_addOns_raw_witness :
    0 ≤ (calculateAddOns exteriorWitnessJob).shuttersCost ∧
    0 ≤ (calculateAddOns exteriorWitnessJob).frontDoorCost ∧
    0 ≤ (calculateAddOns exteriorWitnessJob).garageDoorsCost ∧
    0 ≤ (calculateAddOns exteriorWitnessJob).total :=
  c2_doors_clamped_addOns_raw.2 exteriorWitnessJob
    (by norm_num [exteriorWitnessJob]) (by norm_num [exteriorWitnessJob])
    (by norm_num [exteriorWitnessJob])

/-- C3: `calculateInteriorEstimate` applies the job-level adjustments in
the fixed order of `specAdjustedSubtotal` — additional colors added, then
the 15% customer-supplied-paint deduction computed on the running subtotal
that already includes the colors charge, then the flat premium upcharge —
and its setup fee is computed against that adjusted subtotal, with the
final total equal to the adjusted subtotal plus the setup fee. -/
theorem c3_adjustment_order (input : InteriorJobInput) :
    (calculateInteriorEstimate input).subtotal = specAdjustedSubtotal input ∧
    (calculateInteriorEstimate input).setupFee =
      (calculateSetupFee (specAdjustedSubtotal input)).fee ∧
    (calculateInteriorEstimate input).total = specInteriorTotal input := by
  have h3 := interiorSubtotal3_eq_spec input
  refine ⟨h3, ?_, ?_⟩
  · show (calculateSetupFee (interiorSubtotal3 input)).fee = _
    rw [h3]
  · show interiorSubtotal3 input + (calculateSetupFee (interiorSubtotal3 input)).fee = _
    rw [h3]
    rfl

/-- C4 (amended): `calculateSetupFee` returns 0 for subtotals of 1566 and
above, and otherwise the rounded value `round(min(300, 1566 - s))` — the
source rounds the fee with `roundCurrency`, so at fractional subtotals the
returned fee is the rounded, not the exact, shortfall.  The fee always
lies in [0, 300] and is monotonically non-increasing in the subtotal. -/
theorem c4_setupFee_spec :
    (∀ s : ℚ, 1566 ≤ s → (calculateSetupFee s).fee = 0) ∧
    (∀ s : ℚ, s < 1566 →
      (calculateSetupFee s).fee = roundCurrency (min 300 (1566 - s))) ∧
    (∀ s : ℚ, 0 ≤ (calculateSetupFee s).fee ∧ (calculateSetupFee s).fee ≤ 300) ∧
    (∀ s t : ℚ, s ≤ t → (calculateSetupFee t).fee ≤ (calculateSetupFee s).fee) := by
  refine ⟨?_, ?_, ?_, fun s t h => setupFee_antitone h⟩
  · intro s hs
    unfold calculateSetupFee
    dsimp only
    rw [if_pos]
    rw [show clampNonNeg s = max 0 s from rfl]
    rw [show Rates.SETUP_THRESHOLD = (1566:ℚ) from by norm_num [Rates.SETUP_THRESHOLD]]
    exact le_max_of_le_right hs
  · intro s hs
    unfold calculateSetupFee
    dsimp only
    have hth : Rates.SETUP_THRESHOLD = (1566:ℚ) := by norm_num [Rates.SETUP_THRESHOLD]
    have hmx : Rates.SETUP_MAX_FEE = (300:ℚ) := by norm_num [Rates.SETUP_MAX_FEE]
    rcases le_or_lt 0 s with h0 | h0
    · have hcl : clampNonNeg s = s := max_eq_right h0
      rw [if_neg, hcl, hth, hmx]
      rw [hcl, hth]
      exact not_le.mpr hs
    · have hcl : clampNonNeg s = 0 := max_eq_left h0.le
      rw [if_neg, hcl, hth, hmx]
      · rw [min_eq_left (by norm_num), min_eq_left (by linarith)]
      · rw [hcl, hth]
        norm_num
  · intro s
    refine ⟨setupFee_nonneg s, ?_⟩
    have := setupFee_le_max s
    rw [show Rates.SETUP_MAX_FEE = (300:ℚ) from by norm_num [Rates.SETUP_MAX_FEE]] at this
    exact this

/-- C4 counterexample: at the fractional subtotal 1565.4 the code returns
the rounded fee 1, while the claimed exact formula min(300, 1566 - s)
gives 0.6, so the claim as stated is false. -/
theorem c4_counterexample :
    (calculateSetupFee (7827/5)).fee = 1 ∧
      min (300:ℚ) (1566 - 7827/5) = 3/5 ∧
      (calculateSetupFee (7827/5)).fee ≠ min (300:ℚ) (1566 - 7827/5) := by
  refine ⟨?_, by norm_num, ?_⟩ <;>
    norm_num [calculateSetupFee, clampNonNeg, roundCurrency, jround,
      Rates.SETUP_THRESHOLD, Rates.SETUP_MAX_FEE]

/-- C4 witness: the amended fee formula and bounds applied at the concrete
subtotals 1600, 1400 and the ordered pair 1400 and 1500. -/
theorem c4_setupFee_spec_witness :
    (calculateSetupFee 1600).fee = 0 ∧
    (calculateSetupFee 1400).fee = roundCurrency (min 300 (1566 - 1400)) ∧
    (calculateSetupFee 1500).fee ≤ (calculateSetupFee 1400).fee :=
  ⟨c4_setupFee_spec.1 1600 (by norm_num),
   c4_setupFee_spec.2.1 1400 (by norm_num),
   c4_setupFee_spec.2.2.2 1400 1500 (by norm_num)⟩

/-- C5: for positive areas with walls in scope, the wall cost is
`max(round(area x m), 275)` where `m` is the per-category multiplier of
`specWallMultiplier` (2.8 general, 3.1 kitchen, 4.1 bathroom, plus 0.5
when vaulted, added before the minimum clamp), and `minimumApplied` is
reported exactly when the unclamped product falls below 275. -/
theorem c5_wallCost (floorSqft : ℚ) (roomType : RoomType) (vaulted : Bool)
    (h : 0 < floorSqft) :
    (calculateRoomWalls floorSqft roomType vaulted true).cost =
      max (roundCurrency (floorSqft * specWallMultiplier roomType vaulted)) 275 ∧
    ((calculateRoomWalls floorSqft roomType vaulted true).minimumApplied = true ↔
      floorSqft * specWallMultiplier roomType vaulted < 275) := by
  have hm : getWallMultiplier roomType + (if vaulted then Rates.VAULTED_ADD else 0) =
      specWallMultiplier roomType vaulted := by
    cases roomType <;> cases vaulted <;>
      norm_num [getWallMultiplier, specWallMultiplier, Rates.WALL_MULT_GENERAL,
        Rates.WALL_MULT_KITCHEN, Rates.WALL_MULT_BATHROOM, Rates.VAULTED_ADD]
  have hcond : ¬ ((!true || decide (floorSqft ≤ 0)) = true) := by
    simp [not_le.mpr h]
  have hMIN : Rates.MIN_ROOM_CHARGE = (275:ℚ) := by norm_num [Rates.MIN_ROOM_CHARGE]
  unfold calculateRoomWalls
  rw [if_neg hcond]
  dsimp only
  have hcl : clampNonNeg floorSqft = floorSqft := max_eq_right h.le
  rw [hcl, hm, hMIN]
  constructor
  · exact roundCurrency_max_whole ⟨275, by norm_num⟩
  · simp only [decide_eq_true_eq]

/-- C5 witness: a 50 sq ft general room, where 50 x 2.8 = 140 falls below
the 275 minimum. -/
theorem c5_wallCost_witness :
    (calculateRoomWalls 50 RoomType.general false true).cost =
      max (roundCurrency (50 * specWallMultiplier RoomType.general false)) 275 ∧
    ((calculateRoomWalls 50 RoomType.general false true).minimumApplied = true ↔
      50 * specWallMultiplier RoomType.general false < 275) :=
  c5_wallCost 50 RoomType.general false (by norm_num)

/-- C6: the exterior engine rounds every currency checkpoint at the point
it is computed — base calculation, after-coats value, full total and final
total — and the one-story, 2000 sq ft, full-scope job with no difficulty
flags, light flaking and no add-ons yields 4250 / 6800 / 6800. -/
theorem c6_exterior_checkpoints :
    (∀ (input : ExteriorJobInput) (now : ℚ),
      (calculateExteriorEstimate input now).breakdown.baseCalculation =
        roundCurrency
          ((calculateExteriorEstimate input now).breakdown.totalMultiplier *
            input.houseSqft + 1750) ∧
      (calculateExteriorEstimate input now).breakdown.afterCoatMultiplier =
        roundCurrency
          ((calculateExteriorEstimate input now).breakdown.baseCalculation * 1.6) ∧
      (calculateExteriorEstimate input now).breakdown.fullExteriorTotal =
        roundCurrency
          ((calculateExteriorEstimate input now).breakdown.afterCoatMultiplier +
            (calculateExteriorEstimate input now).breakdown.totalAddOns) ∧
      (calculateExteriorEstimate input now).breakdown.finalTotal =
        roundCurrency
          ((calculateExteriorEstimate input now).breakdown.fullExteriorTotal *
            (calculateExteriorEstimate input now).breakdown.scopeMultiplier)) ∧
    ((exteriorBreakdown exteriorExampleJob).baseCalculation = 4250 ∧
     (exteriorBreakdown exteriorExampleJob).afterCoatMultiplier = 6800 ∧
     (exteriorBreakdown exteriorExampleJob).finalTotal = 6800 ∧
     (calculateExteriorEstimate exteriorExampleJob 0).total = 6800) := by
  constructor
  · intro input now
    exact ⟨rfl, rfl, rfl, rfl⟩
  · norm_num [calculateExteriorEstimate, exteriorBreakdown, exteriorExampleJob,
      getHeightMultiplier, calculateDifficultyAdjustment, getFlakingAdjustment,
      calculateAddOns, getScopeMultiplier, roundCurrency, jround,
      Rates.EXTERIOR_HEIGHT_MULT_ONE_STORY, Rates.EXTERIOR_DIFFICULTY_NON_FLAT_GROUND,
      Rates.EXTERIOR_DIFFICULTY_ROOF_ACCESS, Rates.EXTERIOR_FLAKING_LIGHT,
      Rates.EXTERIOR_BASE_FEE, Rates.EXTERIOR_COAT_MULTIPLIER,
      Rates.EXTERIOR_ADD_ON_SHUTTER, Rates.EXTERIOR_ADD_ON_GARAGE_1_CAR,
      Rates.EXTERIOR_ADD_ON_GARAGE_2_CAR, List.filter]

/-- C7: the flaking adjustment is 0 for light, 0.3 for medium, and for
heavy it is the caller override clamped into [0.5, 1.0] (0.5 when omitted);
in particular heavy is always within [0.5, 1.0], with 0.3 clamping up to
0.5 and 1.5 clamping down to 1.0. -/
theorem c7_flaking_clamped :
    (∀ o : Option ℚ, getFlakingAdjustment FlakingSeverity.light o = 0) ∧
    (∀ o : Option ℚ, getFlakingAdjustment FlakingSeverity.medium o = 3/10) ∧
    (∀ o : Option ℚ, getFlakingAdjustment FlakingSeverity.heavy o =
      min 1 (max (1/2) (o.getD (1/2)))) ∧
    (∀ o : Option ℚ, 1/2 ≤ getFlakingAdjustment FlakingSeverity.heavy o ∧
      getFlakingAdjustment FlakingSeverity.heavy o ≤ 1) ∧
    getFlakingAdjustment FlakingSeverity.heavy none = 1/2 ∧
    getFlakingAdjustment FlakingSeverity.heavy (some (3/10)) = 1/2 ∧
    getFlakingAdjustment FlakingSeverity.heavy (some (3/2)) = 1 := by
  have hmin : Rates.EXTERIOR_FLAKING_HEAVY_MIN = (1:ℚ)/2 := by
    norm_num [Rates.EXTERIOR_FLAKING_HEAVY_MIN]
  have hmax : Rates.EXTERIOR_FLAKING_HEAVY_MAX = (1:ℚ) := by
    norm_num [Rates.EXTERIOR_FLAKING_HEAVY_MAX]
  refine ⟨?_, ?_, ?_, ?_, ?_, ?_, ?_⟩
  · intro o
    norm_num [getFlakingAdjustment, Rates.EXTERIOR_FLAKING_LIGHT]
  · intro o
    norm_num [getFlakingAdjustment, Rates.EXTERIOR_FLAKING_MEDIUM]
  · intro o
    show min Rates.EXTERIOR_FLAKING_HEAVY_MAX
      (max Rates.EXTERIOR_FLAKING_HEAVY_MIN (o.getD Rates.EXTERIOR_FLAKING_HEAVY_MIN)) = _
    rw [hmin, hmax]
  · intro o
    constructor
    · refine le_min (by norm_num [hmax]) ?_
      show (1:ℚ)/2 ≤ max Rates.EXTERIOR_FLAKING_HEAVY_MIN (o.getD Rates.EXTERIOR_FLAKING_HEAVY_MIN)
      exact le_trans (le_of_eq hmin.symm) (le_max_left _ _)
    · calc getFlakingAdjustment FlakingSeverity.heavy o
          ≤ Rates.EXTERIOR_FLAKING_HEAVY_MAX := min_le_left _ _
        _ = 1 := hmax
  · show min Rates.EXTERIOR_FLAKING_HEAVY_MAX
      (max Rates.EXTERIOR_FLAKING_HEAVY_MIN Rates.EXTERIOR_FLAKING_HEAVY_MIN) = _
    rw [hmin, hmax]
    norm_num
  · show min Rates.EXTERIOR_FLAKING_HEAVY_MAX
      (max Rates.EXTERIOR_FLAKING_HEAVY_MIN (3/10)) = _
    rw [hmin, hmax]
    norm_num
  · show min Rates.EXTERIOR_FLAKING_HEAVY_MAX
      (max Rates.EXTERIOR_FLAKING_HEAVY_MIN (3/2)) = _
    rw [hmin, hmax]
    norm_num

/-- C8: both engines are pure functions of their input: the interior
estimate is literally the same value on repeated calls, and two exterior
calls at different times agree on every field except the reported
`calculatedAt` timestamp, which is exactly the supplied time — no pricing
number depends on the time. -/
theorem c8_deterministic :
    (∀ input : InteriorJobInput,
      calculateInteriorEstimate input = calculateInteriorEstimate input) ∧
    (∀ (input : ExteriorJobInput) (t1 t2 : ℚ),
      (calculateExteriorEstimate input t1).input =
        (calculateExteriorEstimate input t2).input ∧
      (calculateExteriorEstimate input t1).breakdown =
        (calculateExteriorEstimate input t2).breakdown ∧
      (calculateExteriorEstimate input t1).lineItems =
        (calculateExteriorEstimate input t2).lineItems ∧
      (calculateExteriorEstimate input t1).total =
        (calculateExteriorEstimate input t2).total ∧
      (calculateExteriorEstimate input t1).calculatedAt = t1) :=
  ⟨fun _ => rfl, fun _ _ _ => ⟨rfl, rfl, rfl, rfl, rfl⟩⟩

/-- C9: on the empty interior job (no rooms, one wall color, both paint
options off) the estimate has subtotal 0, setup fee 300, total 300, and a
non-empty warnings list containing the no-rooms warning. -/
theorem c9_empty_rooms :
    (calculateInteriorEstimate emptyInteriorJob).subtotal = 0 ∧
    (calculateInteriorEstimate emptyInteriorJob).setupFee = 300 ∧
    (calculateInteriorEstimate emptyInteriorJob).total = 300 ∧
    (calculateInteriorEstimate emptyInteriorJob).warnings ≠ [] ∧
    Warning.noRooms ∈ (calculateInteriorEstimate emptyInteriorJob).warnings := by
  have hw : (calculateInteriorEstimate emptyInteriorJob).warnings = [Warning.noRooms] := by
    norm_num [calculateInteriorEstimate, interiorWarnings, emptyInteriorJob]
  refine ⟨?_, ?_, ?_, ?_, ?_⟩
  · norm_num [calculateInteriorEstimate, emptyInteriorJob, interiorSubtotal3,
      interiorSubtotal2, interiorSubtotal1, interiorDeduction, interiorRoomItems,
      interiorRoomResults, calculateAdditionalColors, clampNonNeg, roundCurrency,
      jround, jfloor, sumCosts, Rates.ADDITIONAL_COLOR_FEE]
  · norm_num [calculateInteriorEstimate, emptyInteriorJob, interiorSubtotal3,
      interiorSubtotal2, interiorSubtotal1, interiorDeduction, interiorRoomItems,
      interiorRoomResults, calculateAdditionalColors, calculateSetupFee, clampNonNeg,
      roundCurrency, jround, jfloor, sumCosts, Rates.ADDITIONAL_COLOR_FEE,
      Rates.SETUP_THRESHOLD, Rates.SETUP_MAX_FEE]
  · norm_num [calculateInteriorEstimate, emptyInteriorJob, interiorSubtotal3,
      interiorSubtotal2, interiorSubtotal1, interiorDeduction, interiorRoomItems,
      interiorRoomResults, calculateAdditionalColors, calculateSetupFee, clampNonNeg,
      roundCurrency, jround, jfloor, sumCosts, Rates.ADDITIONAL_COLOR_FEE,
      Rates.SETUP_THRESHOLD, Rates.SETUP_MAX_FEE]
  · rw [hw]
    simp
  · rw [hw]
    simp

/-- C10: every room line item has non-negative cost; the 15% customer
supplied-paint deduction never exceeds the running subtotal it is computed
from; and the estimate's subtotal, setup fee and total are all
non-negative, for every real-valued interior input. -/
theorem c10_interior_invariants :
    (∀ room : RoomInput, ∀ item ∈ (calculateRoom room).lineItems, 0 ≤ item.cost) ∧
    (∀ input : InteriorJobInput, interiorDeduction input ≤ interiorSubtotal1 input) ∧
    (∀ input : InteriorJobInput,
      0 ≤ (calculateInteriorEstimate input).subtotal ∧
      0 ≤ (calculateInteriorEstimate input).setupFee ∧
      0 ≤ (calculateInteriorEstimate input).total) := by
  refine ⟨fun room item h => (calculateRoom_mem_pos h).le, fun input => ?_, fun input => ?_⟩
  · unfold interiorDeduction
    exact deduction_le_base (interiorSubtotal1_nonneg input)
  · have h3 := interiorSubtotal3_nonneg input
    have hf := setupFee_nonneg (interiorSubtotal3 input)
    exact ⟨h3, hf, add_nonneg h3 hf⟩

/-- C10 witness: the non-negativity of the single walls line item of the
200 sq ft example room, whose cost is 560. -/
theorem c10_interior_invariants_witness :
    0 ≤ ({ category := LineItemCategory.walls, cost := 560,
           roomId := some ("r1") } : LineItem).cost :=
  c10_interior_invariants.1 exampleRoom _ (by
    have hitems : (calculateRoom exampleRoom).lineItems =
        [{ category := LineItemCategory.walls, cost := 560, roomId := some ("r1") }] := by
      norm_num [calculateRoom, exampleRoom, calculateRoomWalls, calculateCeiling,
        calculateTrim, calculateCrownMolding, calculateDoors, calculateClosets,
        calculateWindows, calculateAccentWalls, calculateScaffolding,
        calculateWallpaperRemoval, clampNonNeg, roundCurrency, jround, jfloor,
        getWallMultiplier, guardItem, Rates.WALL_MULT_GENERAL, Rates.MIN_ROOM_CHARGE,
        Rates.VAULTED_ADD, Rates.CROWN_MOLDING_PER_LF, Rates.DOOR_PER_SIDE,
        Rates.CLOSET_STANDARD, Rates.CLOSET_WALKIN, Rates.ACCENT_WALL_IN_ROOM,
        Rates.ACCENT_WALL_STANDALONE, Rates.SCAFFOLDING_FEE, Rates.WALLPAPER_PER_WALL_SF]
    rw [hitems]
    exact List.mem_singleton.mpr rfl)

end EstCalc
